import Mathlib

/-!
Verification development for the clipdeck statistics-service.

The statistics pipeline and bot-detection engine are embedded shallowly:

* JavaScript numbers are idealized as rationals (`ℚ`); every concrete value
  appearing in the development is exactly representable, and no comparison
  sits on a rounding boundary.
* `Infinity`, produced by `calculateGrowthRate` on a zero base, is modelled
  by the two-constructor type `GrowthRate`; the source only ever compares a
  growth rate against a finite positive threshold, which `GrowthRate.gt`
  mirrors (`Infinity > t` is true).
* In `detectZeroVariance` the source computes `cv = sqrt(variance)/|mean|`
  and tests `cv < 0.1 && mean > 20`.  Over the reals this conjunction is
  equivalent to `100 * variance < mean ^ 2 && mean > 20` (squaring the first
  inequality; when `mean = 0` the source's division yields `Infinity` or
  `NaN`, both failing `< 0.1`, and `variance < 0` also fails), so the
  embedding uses the square-free form and stays inside `ℚ`.
* `recordedAt` (an ISO timestamp string only ever consumed through
  `new Date(x).getHours()`) is abstracted as a natural number, with
  `getHours` modelled as reduction mod 24.
* Effectful code (Redis, the event publisher, Prisma upserts, the platform
  adapters) is modelled by explicit environments describing the outcome of
  each external call, and by effect traces listing the writes, publishes
  and delays the code performs.
-/

set_option linter.unusedVariables false

namespace StatisticsService

/-! ## Bot detection: data model (src/services/botDetection.ts) -/

structure StatsHistoryEntry where
  views : ℚ
  likes : ℚ
  comments : ℚ
  shares : ℚ
  recordedAt : ℕ
deriving DecidableEq

inductive FlagType where
  | VIEWS_SPIKE
  | LIKES_SPIKE
  | COMMENTS_SPIKE
  | ENGAGEMENT_RATIO_KIND
  | SUSPICIOUS_PATTERN
  | VELOCITY_ANOMALY
  | TIME_PATTERN
  | RATIO_ANOMALY
  | ZERO_VARIANCE
  | SUDDEN_STOP
deriving DecidableEq

inductive Severity where
  | LOW
  | MEDIUM
  | HIGH
deriving DecidableEq

structure BotFlag where
  type : FlagType
  severity : Severity
  description : String
  confidence : ℚ
deriving DecidableEq

structure BotDetectionResult where
  hasAnomalies : Bool
  flags : List BotFlag
  confidenceScore : ℚ
deriving DecidableEq

/-! ## Platform thresholds (PLATFORM_THRESHOLDS) -/

structure SpikeLevels where
  high : ℚ
  medium : ℚ
deriving DecidableEq

structure PlatformThresholdSet where
  viewsSpike : SpikeLevels
  likesSpike : SpikeLevels
  commentsSpike : SpikeLevels
  engagementLevels : SpikeLevels
  minViews : ℚ
deriving DecidableEq

def tiktokThresholds : PlatformThresholdSet :=
  ⟨⟨800, 300⟩, ⟨400, 200⟩, ⟨500, 250⟩, ⟨0.4, 0.25⟩, 500⟩

def instagramThresholds : PlatformThresholdSet :=
  ⟨⟨600, 250⟩, ⟨350, 180⟩, ⟨450, 220⟩, ⟨0.35, 0.2⟩, 300⟩

def youtubeThresholds : PlatformThresholdSet :=
  ⟨⟨700, 280⟩, ⟨380, 190⟩, ⟨480, 240⟩, ⟨0.38, 0.22⟩, 400⟩

def twitterThresholds : PlatformThresholdSet :=
  ⟨⟨700, 280⟩, ⟨380, 190⟩, ⟨480, 240⟩, ⟨0.38, 0.22⟩, 400⟩

def PLATFORM_THRESHOLDS (platform : String) : Option PlatformThresholdSet :=
  if platform = "TIKTOK" then some tiktokThresholds
  else if platform = "INSTAGRAM" then some instagramThresholds
  else if platform = "YOUTUBE" then some youtubeThresholds
  else if platform = "TWITTER" then some twitterThresholds
  else none

/-- `PLATFORM_THRESHOLDS[platform] || PLATFORM_THRESHOLDS.YOUTUBE` -/
def thresholdsFor (platform : String) : PlatformThresholdSet :=
  (PLATFORM_THRESHOLDS platform).getD youtubeThresholds

lemma thresholdsFor_TIKTOK : thresholdsFor "TIKTOK" = tiktokThresholds := rfl

lemma thresholdsFor_YOUTUBE : thresholdsFor "YOUTUBE" = youtubeThresholds := rfl

/-! ## Helper functions -/

/-- A JavaScript number that is either finite or `Infinity`. -/
inductive GrowthRate where
  | inf : GrowthRate
  | fin : ℚ → GrowthRate
deriving DecidableEq

/-- `calculateGrowthRate`: `previous == 0 ? (current > 0 ? Infinity : 0)
    : ((current - previous) / previous) * 100`. -/
def calculateGrowthRate (previous current : ℚ) : GrowthRate :=
  if previous = 0 then (if current > 0 then GrowthRate.inf else GrowthRate.fin 0)
  else GrowthRate.fin (((current - previous) / previous) * 100)

/-- Comparison of a growth rate against a finite threshold
    (`Infinity > t` is true in JavaScript). -/
def GrowthRate.gt (g : GrowthRate) (t : ℚ) : Bool :=
  match g with
  | GrowthRate.inf => true
  | GrowthRate.fin q => decide (q > t)

/-- `isFinite` filter used by `detectZeroVariance`. -/
def GrowthRate.toFinite (g : GrowthRate) : Option ℚ :=
  match g with
  | GrowthRate.inf => none
  | GrowthRate.fin q => some q

/-- Per-step pairs `(history[i], history[i+1])` for `i < len - 1`. -/
def stepPairs (history : List StatsHistoryEntry) :
    List (StatsHistoryEntry × StatsHistoryEntry) :=
  history.zip history.tail

/-! ## Detection algorithms -/

/-- `detectVelocityAnomaly`: velocities `v[i] = h[i].views - h[i+1].views`,
    accelerations `a[i] = v[i] - v[i+1]`; flag when
    `max |a| > 5 * avg(a)` and `max |a| > 1000`.
    `Math.max` over the (nonempty, when `len ≥ 4`) list of absolute values is
    modelled by a fold from `0`, which agrees since every `|a|` is `≥ 0`. -/
def detectVelocityAnomaly (history : List StatsHistoryEntry) : Option BotFlag :=
  if history.length < 4 then none
  else
    let velocities := (stepPairs history).map (fun p => p.1.views - p.2.views)
    let accelerations := (velocities.zip velocities.tail).map (fun p => p.1 - p.2)
    let avgAcceleration := accelerations.sum / (accelerations.length : ℚ)
    let maxAcceleration := (accelerations.map (fun a => |a|)).foldl max 0
    if maxAcceleration > avgAcceleration * 5 ∧ maxAcceleration > 1000 then
      some ⟨FlagType.VELOCITY_ANOMALY, Severity.HIGH,
        "Abnormal acceleration detected", 85⟩
    else none

/-- `detectTimePattern`: bucket per-step view growth by the hour of
    `history[i].recordedAt`; flag when the largest bucket exceeds eight times
    the average bucket and 5000.  `Object.values` order is irrelevant to the
    max and the sum; the max over the nonempty value list is folded from its
    head. -/
def detectTimePattern (history : List StatsHistoryEntry) : Option BotFlag :=
  if history.length < 24 then none
  else
    let steps := (stepPairs history).map
      (fun p => (p.1.recordedAt % 24, p.1.views - p.2.views))
    let hours := (steps.map Prod.fst).dedup
    let growthValues := hours.map
      (fun h => ((steps.filter (fun s => s.1 = h)).map Prod.snd).sum)
    let maxGrowth := growthValues.foldl max (growthValues.headD 0)
    let avgGrowth := growthValues.sum / (growthValues.length : ℚ)
    if maxGrowth > avgGrowth * 8 ∧ maxGrowth > 5000 then
      some ⟨FlagType.TIME_PATTERN, Severity.MEDIUM,
        "Suspicious time pattern", 70⟩
    else none

/-- `detectRatioAnomaly` (the `platform` parameter is unused in the source
    body as well). -/
def detectRatioAnomaly (latest : StatsHistoryEntry) (platform : String) :
    Option BotFlag :=
  if latest.views < 100 then none
  else
    let likesRat := latest.likes / latest.views
    let commentsRat := latest.comments / latest.views
    if likesRat > 0.15 ∧ latest.views > 1000 then
      some ⟨FlagType.RATIO_ANOMALY, Severity.HIGH,
        "Abnormally high likes to views proportion", 90⟩
    else if commentsRat > 0.05 ∧ latest.views > 1000 then
      some ⟨FlagType.RATIO_ANOMALY, Severity.MEDIUM,
        "Abnormally high comments to views proportion", 75⟩
    else none

/-- `detectZeroVariance`: growth-rate series of `views` with infinite samples
    skipped; requires at least 5 finite samples; flags when
    `cv < 0.1 && mean > 20`, embedded square-free as
    `100 * variance < mean ^ 2 && mean > 20` (see the file comment). -/
def detectZeroVariance (history : List StatsHistoryEntry) : Option BotFlag :=
  if history.length < 6 then none
  else
    let growthRates := ((stepPairs history).map
      (fun p => calculateGrowthRate p.2.views p.1.views)).filterMap
      GrowthRate.toFinite
    if growthRates.length < 5 then none
    else
      let mean := growthRates.sum / (growthRates.length : ℚ)
      let variance := (growthRates.map (fun r => (r - mean) ^ 2)).sum /
        (growthRates.length : ℚ)
      if 100 * variance < mean ^ 2 ∧ mean > 20 then
        some ⟨FlagType.ZERO_VARIANCE, Severity.HIGH,
          "Suspiciously constant growth", 95⟩
      else none

/-- `detectSuddenStop`: average per-step growth over the recent six samples
    vs. the previous six; flag when `previousAvg > 500` and
    `recentAvg < 0.1 * previousAvg`. -/
def detectSuddenStop (history : List StatsHistoryEntry) : Option BotFlag :=
  if history.length < 12 then none
  else
    let recent6 := history.take 6
    let previous6 := (history.drop 6).take 6
    let recentAvgGrowth :=
      ((stepPairs recent6).map (fun p => p.1.views - p.2.views)).sum / 5
    let previousAvgGrowth :=
      ((stepPairs previous6).map (fun p => p.1.views - p.2.views)).sum / 5
    if previousAvgGrowth > 500 ∧ recentAvgGrowth < previousAvgGrowth * 0.1 then
      some ⟨FlagType.SUDDEN_STOP, Severity.MEDIUM,
        "Abrupt stop in growth", 70⟩
    else none

/-! ## Main detection function (`detectAnomalies`) -/

/-- The first spike rule of `detectAnomalies` (inline in the source):
    views growth vs. `viewsSpike.high`/`viewsSpike.medium` with deltas
    `> 2 * minViews` / `> minViews`. -/
def viewsSpikeFlag (thresholds : PlatformThresholdSet)
    (latest previous : StatsHistoryEntry) : Option BotFlag :=
  let viewsGrowth := calculateGrowthRate previous.views latest.views
  let viewsDelta := latest.views - previous.views
  if viewsGrowth.gt thresholds.viewsSpike.high = true ∧
      viewsDelta > thresholds.minViews * 2 then
    some ⟨FlagType.VIEWS_SPIKE, Severity.HIGH,
      "Views increased sharply in 1 hour", 90⟩
  else if viewsGrowth.gt thresholds.viewsSpike.medium = true ∧
      viewsDelta > thresholds.minViews then
    some ⟨FlagType.VIEWS_SPIKE, Severity.MEDIUM,
      "Views increased sharply in 1 hour", 70⟩
  else none

/-- The second spike rule: likes growth with fixed deltas 100 / 50. -/
def likesSpikeFlag (thresholds : PlatformThresholdSet)
    (latest previous : StatsHistoryEntry) : Option BotFlag :=
  let likesGrowth := calculateGrowthRate previous.likes latest.likes
  let likesDelta := latest.likes - previous.likes
  if likesGrowth.gt thresholds.likesSpike.high = true ∧ likesDelta > 100 then
    some ⟨FlagType.LIKES_SPIKE, Severity.HIGH,
      "Likes increased sharply in 1 hour", 85⟩
  else if likesGrowth.gt thresholds.likesSpike.medium = true ∧
      likesDelta > 50 then
    some ⟨FlagType.LIKES_SPIKE, Severity.MEDIUM,
      "Likes increased sharply in 1 hour", 65⟩
  else none

/-- The third spike rule: comments growth, HIGH tier only, delta `> 50`. -/
def commentsSpikeFlag (thresholds : PlatformThresholdSet)
    (latest previous : StatsHistoryEntry) : Option BotFlag :=
  let commentsGrowth := calculateGrowthRate previous.comments latest.comments
  let commentsDelta := latest.comments - previous.comments
  if commentsGrowth.gt thresholds.commentsSpike.high = true ∧
      commentsDelta > 50 then
    some ⟨FlagType.COMMENTS_SPIKE, Severity.HIGH,
      "Comments increased sharply in 1 hour", 88⟩
  else none

/-- The fourth rule: engagement proportion `(likes + comments) / views`
    (0 when `views = 0`), against `engagementRatio` thresholds, gated by
    `views > minViews`.  (Source constructor name: ENGAGEMENT_RATIO.) -/
def engagementRateOf (e : StatsHistoryEntry) : ℚ :=
  if e.views > 0 then (e.likes + e.comments) / e.views else 0

def engagementFlag (thresholds : PlatformThresholdSet)
    (latest : StatsHistoryEntry) : Option BotFlag :=
  let engagementRate := engagementRateOf latest
  if engagementRate > thresholds.engagementLevels.high ∧
      latest.views > thresholds.minViews then
    some ⟨FlagType.ENGAGEMENT_RATIO_KIND, Severity.HIGH,
      "Abnormally high engagement", 92⟩
  else if engagementRate > thresholds.engagementLevels.medium ∧
      latest.views > thresholds.minViews then
    some ⟨FlagType.ENGAGEMENT_RATIO_KIND, Severity.MEDIUM,
      "Suspicious engagement", 75⟩
  else none

/-- `detectAnomalies(history, platform)`.  `history.length < 2` returns the
    empty result before any rule is evaluated; otherwise the four spike rules
    run on `latest = history[0]`, `previous = history[1]`, followed by the
    advanced rules gated on history length, in source push order. -/
def detectAnomalies (history : List StatsHistoryEntry) (platform : String) :
    BotDetectionResult :=
  let thresholds := thresholdsFor platform
  match history with
  | latest :: previous :: _ =>
    let flags : List BotFlag :=
      (viewsSpikeFlag thresholds latest previous).toList ++
      (likesSpikeFlag thresholds latest previous).toList ++
      (commentsSpikeFlag thresholds latest previous).toList ++
      (engagementFlag thresholds latest).toList ++
      (if 5 ≤ history.length then
        (detectZeroVariance history).toList ++
        (detectVelocityAnomaly history).toList ++
        (detectRatioAnomaly latest platform).toList
      else []) ++
      (if 12 ≤ history.length then (detectSuddenStop history).toList else []) ++
      (if 24 ≤ history.length then (detectTimePattern history).toList else [])
    let confidenceScore : ℚ :=
      if 0 < flags.length then
        min 100 ((flags.map BotFlag.confidence).sum / (flags.length : ℚ))
      else 0
    ⟨decide (0 < flags.length), flags, confidenceScore⟩
  | _ => ⟨false, [], 0⟩

/-! ## Bot detection wrapper (`runBotDetection`, success path)

The wrapper fetches history/platform/campaignId/userId from the
clip-service; the model covers the success path after that fetch
(the fetch itself and the null result on fetch failure are outside the
claims below).  A publish failure is caught and logged, so the model
records whether a publish was *attempted* separately from whether an
event was delivered. -/

def FlagType.str : FlagType → String
  | FlagType.VIEWS_SPIKE => "VIEWS_SPIKE"
  | FlagType.LIKES_SPIKE => "LIKES_SPIKE"
  | FlagType.COMMENTS_SPIKE => "COMMENTS_SPIKE"
  | FlagType.ENGAGEMENT_RATIO_KIND => "ENGAGEMENT_RATIO"
  | FlagType.SUSPICIOUS_PATTERN => "SUSPICIOUS_PATTERN"
  | FlagType.VELOCITY_ANOMALY => "VELOCITY_ANOMALY"
  | FlagType.TIME_PATTERN => "TIME_PATTERN"
  | FlagType.RATIO_ANOMALY => "RATIO_ANOMALY"
  | FlagType.ZERO_VARIANCE => "ZERO_VARIANCE"
  | FlagType.SUDDEN_STOP => "SUDDEN_STOP"

structure BotDetectedEvent where
  clipId : String
  campaignId : String
  userId : String
  flagType : FlagType
  confidence : ℚ
  evidence : String
deriving DecidableEq

/-- `result.flags.filter(f => f.severity === 'HIGH' || f.severity === 'MEDIUM')` -/
def significantFlags (result : BotDetectionResult) : List BotFlag :=
  result.flags.filter
    (fun f => f.severity = Severity.HIGH ∨ f.severity = Severity.MEDIUM)

/-- Outcome of one `runBotDetection` run after a successful history fetch:
    the detection result, the published events (empty when the publish
    failed or was not attempted) and whether a publish was attempted. -/
structure BotRunOutcome where
  result : BotDetectionResult
  published : List BotDetectedEvent
  publishAttempted : Bool
deriving DecidableEq

/-- The post-fetch body of `runBotDetection`: run `detectAnomalies`, and
    when `hasAnomalies` and at least one significant flag exists, attempt to
    publish `stats.bot_detected` built from the first significant flag. -/
def runBotDetectionCore (clipId : String) (history : List StatsHistoryEntry)
    (platform campaignId userId : String) (publishOk : Bool) :
    BotRunOutcome :=
  let result := detectAnomalies history platform
  match significantFlags result with
  | first :: _ =>
    if result.hasAnomalies then
      let event : BotDetectedEvent :=
        ⟨clipId, campaignId, userId, first.type, result.confidenceScore / 100,
          String.intercalate "; " ((significantFlags result).map
            (fun f => f.type.str ++ ": " ++ f.description))⟩
      ⟨result, if publishOk then [event] else [], true⟩
    else ⟨result, [], false⟩
  | [] => ⟨result, [], false⟩

/-! ## Stats collector (src/services/statsCollector.ts) -/

structure PlatformStats where
  views : ℚ
  likes : ℚ
  comments : ℚ
  shares : ℚ
  thumbnailUrl : Option String
deriving DecidableEq

structure StatsUpdatedEvent where
  clipId : String
  views : ℚ
  likes : ℚ
  comments : ℚ
  shares : ℚ
  engagement : ℚ
deriving DecidableEq

/-- Outcomes of the collector's external calls: the platform adapter
    (`fetchPlatformStats`, which may fail), the Redis read
    (`getCachedStats` already swallows read/parse errors, so it is `none`
    on a miss or an error), and whether the Redis write / event publish
    succeed. -/
structure CollectorEnv where
  fetchPlatformStats : String → String → Except String PlatformStats
  cacheGet : String → String → Option PlatformStats
  cacheSetOk : Bool
  publishOk : Bool

/-- Externally visible effects of one collector call. -/
structure CollectorTrace where
  adapterCalls : List (String × String)
  cacheWrites : List (String × PlatformStats)
  published : List StatsUpdatedEvent
  delayMs : ℕ
deriving DecidableEq

def CollectorTrace.empty : CollectorTrace := ⟨[], [], [], 0⟩

/-- `stats:{platform}:{videoId}` -/
def getCacheKey (platform videoId : String) : String :=
  "stats:" ++ platform ++ ":" ++ videoId

/-- `refreshClipStats`: fetch fresh stats (errors propagate), write the
    cache with TTL 3600 (write failures swallowed), publish `stats.updated`
    with `engagement = (likes + comments) / views` when `views > 0` else 0
    (publish failures swallowed), return the fetched stats. -/
def refreshClipStats (env : CollectorEnv)
    (submissionId platform videoId : String) :
    Except String PlatformStats × CollectorTrace :=
  match env.fetchPlatformStats platform videoId with
  | Except.error e => (Except.error e, ⟨[(platform, videoId)], [], [], 0⟩)
  | Except.ok stats =>
    let cacheWrites :=
      if env.cacheSetOk then [(getCacheKey platform videoId, stats)] else []
    let engagement :=
      if stats.views > 0 then (stats.likes + stats.comments) / stats.views
      else 0
    let published :=
      if env.publishOk then
        [⟨submissionId, stats.views, stats.likes, stats.comments,
          stats.shares, engagement⟩]
      else []
    (Except.ok stats, ⟨[(platform, videoId)], cacheWrites, published, 0⟩)

structure ClipRef where
  id : String
  platform : String
  videoId : String
deriving DecidableEq

/-- Append the trace of one step (and the unconditional 100 ms pause) to an
    accumulated trace. -/
def CollectorTrace.append (t u : CollectorTrace) (pause : ℕ) :
    CollectorTrace :=
  ⟨t.adapterCalls ++ u.adapterCalls, t.cacheWrites ++ u.cacheWrites,
    t.published ++ u.published, t.delayMs + u.delayMs + pause⟩

/-- `batchRefreshStats`: sequential loop; each clip's `refreshClipStats`
    error is caught and counted in `failCount`, a success in `successCount`;
    a 100 ms `setTimeout` pause follows every clip regardless of outcome. -/
def batchRefreshStats (env : ClipRef → CollectorEnv) (clips : List ClipRef) :
    (ℕ × ℕ) × CollectorTrace :=
  match clips with
  | [] => ((0, 0), CollectorTrace.empty)
  | clip :: rest =>
    let step := refreshClipStats (env clip) clip.id clip.platform clip.videoId
    let restRun := batchRefreshStats env rest
    match step.1 with
    | Except.ok _ =>
      ((restRun.1.1 + 1, restRun.1.2), step.2.append restRun.2 100)
    | Except.error _ =>
      ((restRun.1.1, restRun.1.2 + 1), step.2.append restRun.2 100)

/-- `getOrFetchStats`: cache-first read; on a hit return the cached tuple
    with no further effect, on a miss delegate to `refreshClipStats`. -/
def getOrFetchStats (env : CollectorEnv)
    (submissionId platform videoId : String) :
    Except String PlatformStats × CollectorTrace :=
  match env.cacheGet platform videoId with
  | some cached => (Except.ok cached, CollectorTrace.empty)
  | none => refreshClipStats env submissionId platform videoId

/-! ## Campaign cache (src/services/cacheService.ts and the
`campaign.status_changed` handler in src/events/handlers.ts) -/

structure CampaignRow where
  id : String
  title : String
  status : String
deriving DecidableEq

/-- The optional `data` argument of `syncCampaignCache`
    (`{ title?: string; status?: string }`). -/
structure SyncData where
  title : Option String
  status : Option String
deriving DecidableEq

/-- External state seen by `syncCampaignCache`: whether the campaign-service
    client is configured, the outcome of `GET /campaigns/:id`
    `(title, status)`, and the existing cache row for the id. -/
structure CampaignEnv where
  clientConfigured : Bool
  fetchCampaign : String → Except String (String × String)
  existing : Option CampaignRow

/-- JavaScript truthiness of `data.title` (absent or empty is falsy). -/
def titleTruthy (d : SyncData) : Bool :=
  match d.title with
  | some t => t ≠ ""
  | none => false

/-- Prisma `campaignCache.upsert` against the modelled existing row:
    `update` patches only the provided fields, `create` inserts the full
    row. -/
def upsertCampaignRow (existing : Option CampaignRow) (campaignId : String)
    (updTitle updStatus : Option String) (createRow : CampaignRow) :
    Option CampaignRow :=
  match existing with
  | some row =>
    some ⟨row.id, updTitle.getD row.title, updStatus.getD row.status⟩
  | none => some createRow

/-- `syncCampaignCache(campaignId, data?)`: when `data && data.title` is
    truthy, upsert straight from the payload (`status || 'UNKNOWN'` on
    create); otherwise pull from the campaign-service (skipping silently
    when the client is unconfigured) and upsert the fetched title/status.
    Every error is caught and logged, leaving the cache unchanged.
    Returns the cache row for `campaignId` after the call. -/
def syncCampaignCache (env : CampaignEnv) (campaignId : String)
    (data : Option SyncData) : Option CampaignRow :=
  match data with
  | some d =>
    if titleTruthy d then
      upsertCampaignRow env.existing campaignId d.title d.status
        ⟨campaignId, d.title.getD "",
          (if d.status = none ∨ d.status = some "" then "UNKNOWN"
           else d.status.getD "UNKNOWN")⟩
    else
      syncFromService env campaignId
  | none => syncFromService env campaignId
where
  /-- The pull-from-API branch shared by the `data`-less and title-less
      calls. -/
  syncFromService (env : CampaignEnv) (campaignId : String) :
      Option CampaignRow :=
    if env.clientConfigured then
      match env.fetchCampaign campaignId with
      | Except.ok (title, status) =>
        upsertCampaignRow env.existing campaignId (some title) (some status)
          ⟨campaignId, title, status⟩
      | Except.error _ => env.existing
    else env.existing

/-- The `campaign.status_changed` handler body:
    `syncCampaignCache(campaignId, { status: newStatus })` followed by
    `context.ack()`.  Returns the resulting cache row and the ack flag. -/
def statusChangedHandler (env : CampaignEnv)
    (campaignId newStatus : String) : Option CampaignRow × Bool :=
  (syncCampaignCache env campaignId (some ⟨none, some newStatus⟩), true)

/-! ## Weekly clip rankings (src/services/rankingsService.ts) -/

structure ClipData where
  id : String
  platform : String
  campaignId : String
  userId : String
  views : ℚ
  likes : ℚ
  engagement : ℚ
deriving DecidableEq

/-- The sort comparator `(a, b) => b.views - a.views`, ties broken by
    `b.engagement - a.engagement`, expressed as the "a sorts no later than
    b" Boolean relation fed to a stable merge sort. -/
def clipLe (a b : ClipData) : Bool :=
  decide (b.views < a.views ∨ (a.views = b.views ∧ b.engagement ≤ a.engagement))

structure WeeklyClipRankingRow where
  submissionId : String
  platform : String
  views : ℚ
  likes : ℚ
  engagement : ℚ
  rank : ℕ
deriving DecidableEq

/-- The pure core of `calculateWeeklyClipRankings` after the clip-service
    fetch: on empty input return with no upserts; otherwise sort by
    `views DESC, engagement DESC` (JavaScript `Array.prototype.sort` is
    stable, as is `List.mergeSort`) and upsert dense 1-based ranks in order.
    The returned list is the sequence of rows upserted. -/
def calculateWeeklyClipRankings (clips : List ClipData) :
    List WeeklyClipRankingRow :=
  match clips with
  | [] => []
  | _ =>
    let ranked := clips.mergeSort clipLe
    (ranked.enum).map
      (fun p => ⟨p.2.id, p.2.platform, p.2.views, p.2.likes,
        p.2.engagement, p.1 + 1⟩)

/-! ## Helper lemmas: every emitted flag is one of finitely many literals -/

lemma viewsSpikeFlag_spec {th : PlatformThresholdSet}
    {a b : StatsHistoryEntry} {f : BotFlag}
    (h : viewsSpikeFlag th a b = some f) :
    f = ⟨FlagType.VIEWS_SPIKE, Severity.HIGH,
        "Views increased sharply in 1 hour", 90⟩ ∨
    f = ⟨FlagType.VIEWS_SPIKE, Severity.MEDIUM,
        "Views increased sharply in 1 hour", 70⟩ := by
  simp only [viewsSpikeFlag] at h
  split at h
  · cases h; exact Or.inl rfl
  · split at h
    · cases h; exact Or.inr rfl
    · cases h

lemma likesSpikeFlag_spec {th : PlatformThresholdSet}
    {a b : StatsHistoryEntry} {f : BotFlag}
    (h : likesSpikeFlag th a b = some f) :
    f = ⟨FlagType.LIKES_SPIKE, Severity.HIGH,
        "Likes increased sharply in 1 hour", 85⟩ ∨
    f = ⟨FlagType.LIKES_SPIKE, Severity.MEDIUM,
        "Likes increased sharply in 1 hour", 65⟩ := by
  simp only [likesSpikeFlag] at h
  split at h
  · cases h; exact Or.inl rfl
  · split at h
    · cases h; exact Or.inr rfl
    · cases h

lemma commentsSpikeFlag_spec {th : PlatformThresholdSet}
    {a b : StatsHistoryEntry} {f : BotFlag}
    (h : commentsSpikeFlag th a b = some f) :
    f = ⟨FlagType.COMMENTS_SPIKE, Severity.HIGH,
        "Comments increased sharply in 1 hour", 88⟩ := by
  simp only [commentsSpikeFlag] at h
  split at h
  · cases h; rfl
  · cases h

lemma engagementFlag_spec {th : PlatformThresholdSet}
    {a : StatsHistoryEntry} {f : BotFlag}
    (h : engagementFlag th a = some f) :
    f = ⟨FlagType.ENGAGEMENT_RATIO_KIND, Severity.HIGH,
        "Abnormally high engagement", 92⟩ ∨
    f = ⟨FlagType.ENGAGEMENT_RATIO_KIND, Severity.MEDIUM,
        "Suspicious engagement", 75⟩ := by
  simp only [engagementFlag] at h
  split at h
  · cases h; exact Or.inl rfl
  · split at h
    · cases h; exact Or.inr rfl
    · cases h

lemma detectZeroVariance_spec {history : List StatsHistoryEntry} {f : BotFlag}
    (h : detectZeroVariance history = some f) :
    f = ⟨FlagType.ZERO_VARIANCE, Severity.HIGH,
        "Suspiciously constant growth", 95⟩ := by
  simp only [detectZeroVariance] at h
  split at h
  · cases h
  · split at h
    · cases h
    · split at h
      · cases h; rfl
      · cases h

lemma detectVelocityAnomaly_spec {history : List StatsHistoryEntry}
    {f : BotFlag} (h : detectVelocityAnomaly history = some f) :
    f = ⟨FlagType.VELOCITY_ANOMALY, Severity.HIGH,
        "Abnormal acceleration detected", 85⟩ := by
  simp only [detectVelocityAnomaly] at h
  split at h
  · cases h
  · split at h
    · cases h; rfl
    · cases h

lemma detectRatioAnomaly_spec {latest : StatsHistoryEntry} {platform : String}
    {f : BotFlag} (h : detectRatioAnomaly latest platform = some f) :
    f = ⟨FlagType.RATIO_ANOMALY, Severity.HIGH,
        "Abnormally high likes to views proportion", 90⟩ ∨
    f = ⟨FlagType.RATIO_ANOMALY, Severity.MEDIUM,
        "Abnormally high comments to views proportion", 75⟩ := by
  simp only [detectRatioAnomaly] at h
  split at h
  · cases h
  · split at h
    · cases h; exact Or.inl rfl
    · split at h
      · cases h; exact Or.inr rfl
      · cases h

lemma detectSuddenStop_spec {history : List StatsHistoryEntry} {f : BotFlag}
    (h : detectSuddenStop history = some f) :
    f = ⟨FlagType.SUDDEN_STOP, Severity.MEDIUM,
        "Abrupt stop in growth", 70⟩ := by
  simp only [detectSuddenStop] at h
  split at h
  · cases h
  · split at h
    · cases h; rfl
    · cases h

lemma detectTimePattern_spec {history : List StatsHistoryEntry} {f : BotFlag}
    (h : detectTimePattern history = some f) :
    f = ⟨FlagType.TIME_PATTERN, Severity.MEDIUM,
        "Suspicious time pattern", 70⟩ := by
  simp only [detectTimePattern] at h
  split at h
  · cases h
  · split at h
    · cases h; rfl
    · cases h

/-- The flag list of `detectAnomalies` on a history of length `≥ 2`,
    exposed as an equation. -/
def candidateFlags (thresholds : PlatformThresholdSet)
    (latest previous : StatsHistoryEntry)
    (history : List StatsHistoryEntry) (platform : String) : List BotFlag :=
  (viewsSpikeFlag thresholds latest previous).toList ++
  (likesSpikeFlag thresholds latest previous).toList ++
  (commentsSpikeFlag thresholds latest previous).toList ++
  (engagementFlag thresholds latest).toList ++
  (if 5 ≤ history.length then
    (detectZeroVariance history).toList ++
    (detectVelocityAnomaly history).toList ++
    (detectRatioAnomaly latest platform).toList
  else []) ++
  (if 12 ≤ history.length then (detectSuddenStop history).toList else []) ++
  (if 24 ≤ history.length then (detectTimePattern history).toList else [])

lemma detectAnomalies_cons_cons (latest previous : StatsHistoryEntry)
    (rest : List StatsHistoryEntry) (platform : String) :
    detectAnomalies (latest :: previous :: rest) platform =
      { hasAnomalies := decide (0 < (candidateFlags (thresholdsFor platform)
          latest previous (latest :: previous :: rest) platform).length),
        flags := candidateFlags (thresholdsFor platform) latest previous
          (latest :: previous :: rest) platform,
        confidenceScore :=
          if 0 < (candidateFlags (thresholdsFor platform) latest previous
              (latest :: previous :: rest) platform).length then
            min 100 (((candidateFlags (thresholdsFor platform) latest previous
              (latest :: previous :: rest) platform).map
                BotFlag.confidence).sum /
              ((candidateFlags (thresholdsFor platform) latest previous
                (latest :: previous :: rest) platform).length : ℚ))
          else 0 } := rfl

/-- Every flag `detectAnomalies` can emit is one of the literal flags; in
    particular its severity is HIGH or MEDIUM and its confidence lies in
    `[65, 95]`. -/
lemma mem_detectAnomalies_flags {history : List StatsHistoryEntry}
    {platform : String} {f : BotFlag}
    (h : f ∈ (detectAnomalies history platform).flags) :
    (f.severity = Severity.HIGH ∨ f.severity = Severity.MEDIUM) ∧
      65 ≤ f.confidence ∧ f.confidence ≤ 95 := by
  match history with
  | [] => simp [detectAnomalies] at h
  | [x] => simp [detectAnomalies] at h
  | latest :: previous :: rest =>
    rw [detectAnomalies_cons_cons] at h
    unfold candidateFlags at h
    simp only [List.mem_append, Option.mem_toList, Option.mem_def] at h
    have resolve : ∀ g : BotFlag,
        (g.severity = Severity.HIGH ∨ g.severity = Severity.MEDIUM) ∧
          65 ≤ g.confidence ∧ g.confidence ≤ 95 →
        (f = g →
          (f.severity = Severity.HIGH ∨ f.severity = Severity.MEDIUM) ∧
            65 ≤ f.confidence ∧ f.confidence ≤ 95) := by
      intro g hg hf; cases hf; exact hg
    rcases h with ((((((h | h) | h) | h) | h) | h) | h)
    · rcases viewsSpikeFlag_spec h with hf | hf <;>
        [exact resolve _ (by norm_num) hf; exact resolve _ (by norm_num) hf]
    · rcases likesSpikeFlag_spec h with hf | hf <;>
        [exact resolve _ (by norm_num) hf; exact resolve _ (by norm_num) hf]
    · exact resolve _ (by norm_num) (commentsSpikeFlag_spec h)
    · rcases engagementFlag_spec h with hf | hf <;>
        [exact resolve _ (by norm_num) hf; exact resolve _ (by norm_num) hf]
    · split at h
      · simp only [List.mem_append, Option.mem_toList, Option.mem_def] at h
        rcases h with (h | h) | h
        · exact resolve _ (by norm_num) (detectZeroVariance_spec h)
        · exact resolve _ (by norm_num) (detectVelocityAnomaly_spec h)
        · rcases detectRatioAnomaly_spec h with hf | hf <;>
            [exact resolve _ (by norm_num) hf; exact resolve _ (by norm_num) hf]
      · simp at h
    · split at h
      · simp only [Option.mem_toList, Option.mem_def] at h
        exact resolve _ (by norm_num) (detectSuddenStop_spec h)
      · simp at h
    · split at h
      · simp only [Option.mem_toList, Option.mem_def] at h
        exact resolve _ (by norm_num) (detectTimePattern_spec h)
      · simp at h

/-- Arithmetic mean bounds for a nonempty list with elementwise bounds. -/
lemma mean_bounds {l : List ℚ} (hne : l ≠ [])
    (hlo : ∀ x ∈ l, 65 ≤ x) (hhi : ∀ x ∈ l, x ≤ 95) :
    65 ≤ l.sum / (l.length : ℚ) ∧ l.sum / (l.length : ℚ) ≤ 95 := by
  have hlen : 0 < (l.length : ℚ) := by
    exact_mod_cast List.length_pos.mpr hne
  have hsum_hi : l.sum ≤ (l.length : ℚ) * 95 := by
    have := List.sum_le_card_nsmul l 95 hhi
    simpa [nsmul_eq_mul] using this
  have hsum_lo : (l.length : ℚ) * 65 ≤ l.sum := by
    have := List.card_nsmul_le_sum l 65 hlo
    simpa [nsmul_eq_mul] using this
  constructor
  · rw [le_div_iff₀ hlen]; linarith
  · rw [div_le_iff₀ hlen]; linarith

/-- C1: for every history and platform, `hasAnomalies` is true exactly when
    `flags` is nonempty; `confidenceScore` is the arithmetic mean of the
    emitted flags' confidences when flags exist (the source's `min 100` cap
    never binds, since every confidence is at most 95) and `0` otherwise;
    consequently `confidenceScore = 0` iff `flags = []`. -/
theorem c1_confidence_score_is_mean (history : List StatsHistoryEntry)
    (platform : String) :
    ((detectAnomalies history platform).hasAnomalies =
      decide ((detectAnomalies history platform).flags ≠ [])) ∧
    ((detectAnomalies history platform).confidenceScore =
      if (detectAnomalies history platform).flags = [] then 0
      else ((detectAnomalies history platform).flags.map
          BotFlag.confidence).sum /
        (((detectAnomalies history platform).flags.length : ℚ))) ∧
    ((detectAnomalies history platform).confidenceScore = 0 ↔
      (detectAnomalies history platform).flags = []) := by
  have hmem : ∀ f ∈ (detectAnomalies history platform).flags,
      (f.severity = Severity.HIGH ∨ f.severity = Severity.MEDIUM) ∧
        65 ≤ f.confidence ∧ f.confidence ≤ 95 :=
    fun f hf => mem_detectAnomalies_flags hf
  match history with
  | [] => refine ⟨rfl, by simp [detectAnomalies], by simp [detectAnomalies]⟩
  | [x] => refine ⟨rfl, by simp [detectAnomalies], by simp [detectAnomalies]⟩
  | latest :: previous :: rest =>
    rw [detectAnomalies_cons_cons] at hmem ⊢
    set L := candidateFlags (thresholdsFor platform) latest previous
      (latest :: previous :: rest) platform with hL
    simp only at hmem ⊢
    by_cases hne : L = []
    · simp [hne]
    · have hlen : 0 < L.length := List.length_pos.mpr hne
      have hmap_ne : L.map BotFlag.confidence ≠ [] := by
        simpa using hne
      have hbounds := mean_bounds hmap_ne
        (by intro x hx
            rcases List.mem_map.mp hx with ⟨f, hf, rfl⟩
            exact (hmem f hf).2.1)
        (by intro x hx
            rcases List.mem_map.mp hx with ⟨f, hf, rfl⟩
            exact (hmem f hf).2.2)
      rw [List.length_map] at hbounds
      have hmean_le : (L.map BotFlag.confidence).sum / (L.length : ℚ) ≤ 95 :=
        hbounds.2
      have hmean_lo : 65 ≤ (L.map BotFlag.confidence).sum / (L.length : ℚ) :=
        hbounds.1
      have hmin : min (100 : ℚ)
          ((L.map BotFlag.confidence).sum / (L.length : ℚ)) =
          (L.map BotFlag.confidence).sum / (L.length : ℚ) :=
        min_eq_right (by linarith)
      refine ⟨?_, ?_, ?_⟩
      · simp [decide_eq_decide, List.length_pos, hne]
      · rw [if_pos hlen, if_neg hne, hmin]
      · rw [if_pos hlen, hmin]
        constructor
        · intro h0
          rw [h0] at hmean_lo
          exact absurd hmean_lo (by norm_num)
        · intro h; exact absurd h hne

/-- C2: a history of length `< 2` yields exactly
    `{hasAnomalies := false, flags := [], confidenceScore := 0}` — the
    function returns before any detection rule is evaluated (the embedding
    mirrors the early return: no rule appears in this branch). -/
theorem c2_short_history_empty_result (history : List StatsHistoryEntry)
    (platform : String) (h : history.length < 2) :
    detectAnomalies history platform =
      ⟨false, [], 0⟩ := by
  match history with
  | [] => rfl
  | [x] => rfl
  | a :: b :: t => simp at h; omega

/-- Witness for C2 at the empty history. -/
theorem c2_short_history_empty_result_witness :
    ([] : List StatsHistoryEntry).length < 2 ∧
      detectAnomalies [] "TIKTOK" = ⟨false, [], 0⟩ :=
  ⟨by decide, c2_short_history_empty_result [] "TIKTOK" (by decide)⟩

/-! ## C3: the ZERO_VARIANCE scenario -/

/-- The spec's scenario history (newest-first views
    `[2200, 2000, 1818, 1653, 1503, 1367]`, all other counters zero). -/
def c3History : List StatsHistoryEntry :=
  [⟨2200, 0, 0, 0, 0⟩, ⟨2000, 0, 0, 0, 1⟩, ⟨1818, 0, 0, 0, 2⟩,
   ⟨1653, 0, 0, 0, 3⟩, ⟨1503, 0, 0, 0, 4⟩, ⟨1367, 0, 0, 0, 5⟩]

/-- C3 counterexample: on the spec's scenario history with platform YOUTUBE,
    `detectAnomalies` emits no flag at all — in particular no ZERO_VARIANCE
    flag, `hasAnomalies` is false and `confidenceScore` is 0, contradicting
    the claimed `{ZERO_VARIANCE HIGH 95, hasAnomalies = true,
    confidenceScore = 95}`.  The per-step growth mean is about 9.98, which
    fails the rule's `mean > 20` gate. -/
theorem c3_zero_variance_counterexample :
    ¬ ((detectAnomalies c3History "YOUTUBE").hasAnomalies = true ∧
      (∃ f ∈ (detectAnomalies c3History "YOUTUBE").flags,
        f.type = FlagType.ZERO_VARIANCE ∧ f.severity = Severity.HIGH ∧
          f.confidence = 95) ∧
      (detectAnomalies c3History "YOUTUBE").confidenceScore = 95) := by
  have h : detectAnomalies c3History "YOUTUBE" = ⟨false, [], 0⟩ := by
    norm_num [detectAnomalies, c3History, viewsSpikeFlag, likesSpikeFlag,
      commentsSpikeFlag, engagementFlag, engagementRateOf, detectZeroVariance,
      detectVelocityAnomaly, detectRatioAnomaly, calculateGrowthRate,
      GrowthRate.gt, GrowthRate.toFinite, stepPairs,
      List.filterMap_cons, List.filterMap_nil,
      thresholdsFor_YOUTUBE, youtubeThresholds]
  rw [h]
  rintro ⟨hfalse, -, -⟩
  exact Bool.false_ne_true hfalse

/-- C3 amended: on the scenario history with platform YOUTUBE,
    `detectAnomalies` returns exactly
    `{hasAnomalies := false, flags := [], confidenceScore := 0}`:
    the growth-rate mean (≈ 9.98%) does not exceed the rule's `mean > 20`
    gate, so `detectZeroVariance` returns `none` and no other rule fires
    either. -/
theorem c3_zero_variance_amended :
    detectZeroVariance c3History = none ∧
      detectAnomalies c3History "YOUTUBE" = ⟨false, [], 0⟩ := by
  constructor
  · norm_num [detectZeroVariance, c3History, calculateGrowthRate,
      GrowthRate.toFinite, stepPairs, List.filterMap_cons, List.filterMap_nil]
  · norm_num [detectAnomalies, c3History, viewsSpikeFlag, likesSpikeFlag,
      commentsSpikeFlag, engagementFlag, engagementRateOf, detectZeroVariance,
      detectVelocityAnomaly, detectRatioAnomaly, calculateGrowthRate,
      GrowthRate.gt, GrowthRate.toFinite, stepPairs,
      List.filterMap_cons, List.filterMap_nil,
      thresholdsFor_YOUTUBE, youtubeThresholds]

/-! ## C4: the VIEWS_SPIKE rule -/

/-- The spec's TIKTOK spike scenario history. -/
def c4History : List StatsHistoryEntry :=
  [⟨12000, 20, 0, 0, 0⟩, ⟨1000, 15, 0, 0, 1⟩]

/-- C4: for any history of length `≥ 2`, when the views growth exceeds the
    platform's `viewsSpike.high` and the views delta exceeds `2 * minViews`,
    a VIEWS_SPIKE flag with severity HIGH and confidence 90 is emitted; when
    that first test fails but growth exceeds `viewsSpike.medium` with delta
    above `minViews`, a MEDIUM flag with confidence 70 is emitted; and on the
    TIKTOK scenario history the result is exactly one VIEWS_SPIKE HIGH flag
    of confidence 90 with `confidenceScore = 90`. -/
theorem c4_views_spike_rule :
    (∀ (latest previous : StatsHistoryEntry) (rest : List StatsHistoryEntry)
      (platform : String),
      ((calculateGrowthRate previous.views latest.views).gt
          (thresholdsFor platform).viewsSpike.high = true →
        latest.views - previous.views > (thresholdsFor platform).minViews * 2 →
        ∃ f ∈ (detectAnomalies (latest :: previous :: rest) platform).flags,
          f.type = FlagType.VIEWS_SPIKE ∧ f.severity = Severity.HIGH ∧
            f.confidence = 90) ∧
      (¬ ((calculateGrowthRate previous.views latest.views).gt
            (thresholdsFor platform).viewsSpike.high = true ∧
          latest.views - previous.views >
            (thresholdsFor platform).minViews * 2) →
        (calculateGrowthRate previous.views latest.views).gt
          (thresholdsFor platform).viewsSpike.medium = true →
        latest.views - previous.views > (thresholdsFor platform).minViews →
        ∃ f ∈ (detectAnomalies (latest :: previous :: rest) platform).flags,
          f.type = FlagType.VIEWS_SPIKE ∧ f.severity = Severity.MEDIUM ∧
            f.confidence = 70)) ∧
    ((detectAnomalies c4History "TIKTOK").flags.map
        (fun f => (f.type, f.severity, f.confidence)) =
      [(FlagType.VIEWS_SPIKE, Severity.HIGH, (90 : ℚ))] ∧
      (detectAnomalies c4History "TIKTOK").hasAnomalies = true ∧
      (detectAnomalies c4History "TIKTOK").confidenceScore = 90) := by
  constructor
  · intro latest previous rest platform
    constructor
    · intro hg hd
      refine ⟨⟨FlagType.VIEWS_SPIKE, Severity.HIGH,
        "Views increased sharply in 1 hour", 90⟩, ?_, rfl, rfl, rfl⟩
      rw [detectAnomalies_cons_cons]
      unfold candidateFlags
      simp only [List.mem_append, Option.mem_toList, Option.mem_def]
      left; left; left; left; left; left
      simp only [viewsSpikeFlag]
      rw [if_pos ⟨hg, hd⟩]
    · intro hnot hm hdm
      refine ⟨⟨FlagType.VIEWS_SPIKE, Severity.MEDIUM,
        "Views increased sharply in 1 hour", 70⟩, ?_, rfl, rfl, rfl⟩
      rw [detectAnomalies_cons_cons]
      unfold candidateFlags
      simp only [List.mem_append, Option.mem_toList, Option.mem_def]
      left; left; left; left; left; left
      simp only [viewsSpikeFlag]
      rw [if_neg hnot, if_pos ⟨hm, hdm⟩]
  · have hres : detectAnomalies c4History "TIKTOK" =
        ⟨true, [⟨FlagType.VIEWS_SPIKE, Severity.HIGH,
          "Views increased sharply in 1 hour", 90⟩], 90⟩ := by
      norm_num [detectAnomalies, c4History, viewsSpikeFlag, likesSpikeFlag,
        commentsSpikeFlag, engagementFlag, engagementRateOf,
        calculateGrowthRate, GrowthRate.gt,
        thresholdsFor_TIKTOK, tiktokThresholds]
    rw [hres]
    exact ⟨rfl, rfl, rfl⟩

/-- Witness for C4, applying the rule at the TIKTOK scenario entries. -/
theorem c4_views_spike_rule_witness :
    ∃ f ∈ (detectAnomalies
      [⟨12000, 20, 0, 0, 0⟩, ⟨1000, 15, 0, 0, 1⟩] "TIKTOK").flags,
      f.type = FlagType.VIEWS_SPIKE ∧ f.severity = Severity.HIGH ∧
        f.confidence = 90 :=
  (c4_views_spike_rule.1 ⟨12000, 20, 0, 0, 0⟩ ⟨1000, 15, 0, 0, 1⟩ [] "TIKTOK").1
    (by norm_num [calculateGrowthRate, GrowthRate.gt,
      thresholdsFor_TIKTOK, tiktokThresholds])
    (by norm_num [thresholdsFor_TIKTOK, tiktokThresholds])

/-! ## C5: the campaign.status_changed handler -/

/-- Concrete environment for the C5 counterexample: no cached row, the
    campaign-service client configured and returning title "Summer Launch"
    with status "ACTIVE". -/
def c5Env : CampaignEnv :=
  ⟨true, fun _ => Except.ok ("Summer Launch", "ACTIVE"), none⟩

/-- C5 counterexample: a `campaign.status_changed` event with
    `newStatus = "PAUSED"` does not upsert the row with status "PAUSED":
    because the payload `{status: newStatus}` has no `title`,
    `syncCampaignCache` takes the pull-from-API branch and stores the
    campaign-service's status "ACTIVE" instead. -/
theorem c5_status_changed_counterexample :
    (statusChangedHandler c5Env "c-1" "PAUSED").1 =
      some ⟨"c-1", "Summer Launch", "ACTIVE"⟩ ∧
    ((statusChangedHandler c5Env "c-1" "PAUSED").1.map CampaignRow.status ≠
      some "PAUSED") := by
  constructor
  · rfl
  · intro h
    simp only [show (statusChangedHandler c5Env "c-1" "PAUSED").1 =
      some ⟨"c-1", "Summer Launch", "ACTIVE"⟩ from rfl, Option.map_some] at h
    exact absurd (Option.some.inj h) (by decide)

/-- C5 amended: the handler passes `{status: newStatus}` to
    `syncCampaignCache`; since the payload carries no title, the row is
    synced from a fresh campaign-service fetch — upserted with the *fetched*
    title and status — not with the event's `newStatus`; when the client is
    unconfigured or the fetch fails the cache is left unchanged (the error
    is swallowed); and the message is acknowledged in every case. -/
theorem c5_status_changed_amended (env : CampaignEnv)
    (campaignId newStatus : String) :
    ((statusChangedHandler env campaignId newStatus).2 = true) ∧
    (∀ title status, env.clientConfigured = true →
      env.fetchCampaign campaignId = Except.ok (title, status) →
      (statusChangedHandler env campaignId newStatus).1 =
        upsertCampaignRow env.existing campaignId (some title) (some status)
          ⟨campaignId, title, status⟩) ∧
    (env.clientConfigured = false →
      (statusChangedHandler env campaignId newStatus).1 = env.existing) ∧
    (∀ e, env.clientConfigured = true →
      env.fetchCampaign campaignId = Except.error e →
      (statusChangedHandler env campaignId newStatus).1 = env.existing) := by
  refine ⟨rfl, ?_, ?_, ?_⟩
  · intro title status hcfg hfetch
    simp [statusChangedHandler, syncCampaignCache, titleTruthy,
      syncCampaignCache.syncFromService, hcfg, hfetch]
  · intro hcfg
    simp [statusChangedHandler, syncCampaignCache, titleTruthy,
      syncCampaignCache.syncFromService, hcfg]
  · intro e hcfg hfetch
    simp [statusChangedHandler, syncCampaignCache, titleTruthy,
      syncCampaignCache.syncFromService, hcfg, hfetch]

/-- Witness for C5's amended statement: with a configured client fetching
    ("Summer Launch", "DONE") and no existing row, the handler stores the
    fetched pair. -/
theorem c5_status_changed_amended_witness :
    (statusChangedHandler ⟨true, fun _ => Except.ok ("Summer Launch", "DONE"),
        none⟩ "c-9" "PAUSED").1 =
      upsertCampaignRow none "c-9" (some "Summer Launch") (some "DONE")
        ⟨"c-9", "Summer Launch", "DONE"⟩ :=
  (c5_status_changed_amended
    ⟨true, fun _ => Except.ok ("Summer Launch", "DONE"), none⟩
    "c-9" "PAUSED").2.1 "Summer Launch" "DONE" rfl rfl

/-! ## C7: refreshClipStats error propagation and effects -/

/-- C7: the platform-adapter error propagates unchanged with nothing
    published and nothing cached; on adapter success the call returns the
    fetched tuple whatever the cache-write and publish outcomes (those
    errors are swallowed), the cache write happens exactly when the Redis
    write succeeds, and the published `stats.updated` event carries the
    tuple plus `engagement = (likes + comments) / views` when `views > 0`
    and `0` otherwise. -/
theorem c7_refresh_clip_stats (env : CollectorEnv)
    (submissionId platform videoId : String) :
    (∀ e, env.fetchPlatformStats platform videoId = Except.error e →
      refreshClipStats env submissionId platform videoId =
        (Except.error e, ⟨[(platform, videoId)], [], [], 0⟩)) ∧
    (∀ stats, env.fetchPlatformStats platform videoId = Except.ok stats →
      refreshClipStats env submissionId platform videoId =
        (Except.ok stats, ⟨[(platform, videoId)],
          (if env.cacheSetOk then [(getCacheKey platform videoId, stats)]
            else []),
          (if env.publishOk then
            [⟨submissionId, stats.views, stats.likes, stats.comments,
              stats.shares,
              if stats.views > 0 then
                (stats.likes + stats.comments) / stats.views
              else 0⟩]
          else []), 0⟩)) := by
  constructor
  · intro e he
    unfold refreshClipStats
    rw [he]
  · intro stats hs
    unfold refreshClipStats
    rw [hs]

/-- Witness for C7: a concrete environment whose adapter succeeds while the
    cache write fails and the publish succeeds still returns the fetched
    tuple and publishes the event with `engagement = (80 + 20) / 1000`. -/
theorem c7_refresh_clip_stats_witness :
    refreshClipStats
      ⟨fun _ _ => Except.ok ⟨1000, 80, 20, 5, none⟩, fun _ _ => none,
        false, true⟩ "s1" "TIKTOK" "xyz" =
      (Except.ok ⟨1000, 80, 20, 5, none⟩, ⟨[("TIKTOK", "xyz")], [],
        [⟨"s1", 1000, 80, 20, 5,
          if (1000 : ℚ) > 0 then ((80 : ℚ) + 20) / 1000 else 0⟩], 0⟩) :=
  (c7_refresh_clip_stats
    ⟨fun _ _ => Except.ok ⟨1000, 80, 20, 5, none⟩, fun _ _ => none,
      false, true⟩ "s1" "TIKTOK" "xyz").2 ⟨1000, 80, 20, 5, none⟩ rfl

/-! ## C8: batchRefreshStats -/

/-- Whether a `refreshClipStats` call on `clip` under `env` succeeds. -/
def clipRefreshOk (env : ClipRef → CollectorEnv) (clip : ClipRef) : Bool :=
  match (refreshClipStats (env clip) clip.id clip.platform clip.videoId).1 with
  | Except.ok _ => true
  | Except.error _ => false

/-- C8: the batch processes every clip: per-clip errors are caught and
    counted rather than aborting, so `successCount` is the number of clips
    whose refresh succeeds, `failCount` the number that fail, their sum is
    the input length, and the accumulated pause is 100 ms per clip
    regardless of outcome. -/
theorem c8_batch_counts_and_pacing (env : ClipRef → CollectorEnv)
    (clips : List ClipRef) :
    (batchRefreshStats env clips).1.1 =
      (clips.filter (clipRefreshOk env)).length ∧
    (batchRefreshStats env clips).1.2 =
      (clips.filter (fun c => ! clipRefreshOk env c)).length ∧
    (batchRefreshStats env clips).1.1 + (batchRefreshStats env clips).1.2 =
      clips.length ∧
    (batchRefreshStats env clips).2.delayMs = 100 * clips.length := by
  induction clips with
  | nil => exact ⟨rfl, rfl, rfl, rfl⟩
  | cons clip rest ih =>
    obtain ⟨ih1, ih2, ih3, ih4⟩ := ih
    have hdelay : (refreshClipStats (env clip) clip.id clip.platform
        clip.videoId).2.delayMs = 0 := by
      rcases h : (env clip).fetchPlatformStats clip.platform clip.videoId
        with e | stats <;> simp [refreshClipStats, h]
    rcases hres : (refreshClipStats (env clip) clip.id clip.platform
        clip.videoId).1 with e | stats
    · have hok : clipRefreshOk env clip = false := by
        simp [clipRefreshOk, hres]
      refine ⟨?_, ?_, ?_, ?_⟩ <;>
        simp [batchRefreshStats, hres, List.filter_cons, hok,
          CollectorTrace.append, ih1, ih2, ih3, ih4, hdelay] <;>
        omega
    · have hok : clipRefreshOk env clip = true := by
        simp [clipRefreshOk, hres]
      refine ⟨?_, ?_, ?_, ?_⟩ <;>
        simp [batchRefreshStats, hres, List.filter_cons, hok,
          CollectorTrace.append, ih1, ih2, ih3, ih4, hdelay] <;>
        omega

/-! ## C9: getOrFetchStats with a warm cache -/

/-- C9: when the cache holds a tuple for `(platform, videoId)`, the call
    returns it unchanged with no adapter call, no cache write and no
    publish. -/
theorem c9_warm_cache_no_effects (env : CollectorEnv)
    (submissionId platform videoId : String) (stats : PlatformStats)
    (h : env.cacheGet platform videoId = some stats) :
    getOrFetchStats env submissionId platform videoId =
      (Except.ok stats, ⟨[], [], [], 0⟩) := by
  unfold getOrFetchStats
  rw [h]
  rfl

/-- Witness for C9: a concrete warm cache returns the cached tuple with an
    empty effect trace. -/
theorem c9_warm_cache_no_effects_witness :
    getOrFetchStats
      ⟨fun _ _ => Except.error "adapter down",
        fun _ _ => some ⟨100, 10, 2, 0, none⟩, true, true⟩
      "s1" "YOUTUBE" "abc" =
      (Except.ok ⟨100, 10, 2, 0, none⟩, ⟨[], [], [], 0⟩) :=
  c9_warm_cache_no_effects
    ⟨fun _ _ => Except.error "adapter down",
      fun _ _ => some ⟨100, 10, 2, 0, none⟩, true, true⟩
    "s1" "YOUTUBE" "abc" ⟨100, 10, 2, 0, none⟩ rfl

/-! ## C6: weekly clip rankings -/

lemma clipLe_trans (a b c : ClipData) (h1 : clipLe a b = true)
    (h2 : clipLe b c = true) : clipLe a c = true := by
  simp only [clipLe, decide_eq_true_eq] at h1 h2 ⊢
  rcases h1 with h1 | ⟨h1e, h1g⟩
  · rcases h2 with h2 | ⟨h2e, h2g⟩
    · exact Or.inl (h2.trans h1)
    · exact Or.inl (h2e ▸ h1)
  · rcases h2 with h2 | ⟨h2e, h2g⟩
    · exact Or.inl (h1e ▸ h2)
    · exact Or.inr ⟨h1e.trans h2e, h2g.trans h1g⟩

lemma clipLe_total (a b : ClipData) : (clipLe a b || clipLe b a) = true := by
  simp only [clipLe, Bool.or_eq_true, decide_eq_true_eq]
  rcases lt_trichotomy a.views b.views with h | h | h
  · exact Or.inr (Or.inl h)
  · rcases le_total a.engagement b.engagement with he | he
    · exact Or.inr (Or.inr ⟨h.symm, he⟩)
    · exact Or.inl (Or.inr ⟨h, he⟩)
  · exact Or.inl (Or.inl h)

/-- C6: on nonempty input the upserted ranks are exactly `1, …, N` in order
    (so no gaps and no duplicates) and a row of smaller-or-equal rank is
    lexicographically greater-or-equal on `(views, engagement)`; on empty
    input no row is upserted. -/
theorem c6_weekly_clip_ranking_invariants (clips : List ClipData) :
    (clips = [] → calculateWeeklyClipRankings clips = []) ∧
    (clips ≠ [] →
      ((calculateWeeklyClipRankings clips).map WeeklyClipRankingRow.rank =
        (List.range clips.length).map (fun i => i + 1)) ∧
      (∀ (i j : ℕ) (hi : i < (calculateWeeklyClipRankings clips).length)
          (hj : j < (calculateWeeklyClipRankings clips).length),
        ((calculateWeeklyClipRankings clips).get ⟨i, hi⟩).rank ≤
          ((calculateWeeklyClipRankings clips).get ⟨j, hj⟩).rank →
        (((calculateWeeklyClipRankings clips).get ⟨j, hj⟩).views <
            ((calculateWeeklyClipRankings clips).get ⟨i, hi⟩).views ∨
          (((calculateWeeklyClipRankings clips).get ⟨i, hi⟩).views =
              ((calculateWeeklyClipRankings clips).get ⟨j, hj⟩).views ∧
            ((calculateWeeklyClipRankings clips).get ⟨j, hj⟩).engagement ≤
              ((calculateWeeklyClipRankings clips).get ⟨i, hi⟩).engagement)))) := by
  constructor
  · rintro rfl; rfl
  · intro hne
    rcases clips with _ | ⟨c, cs⟩
    · exact absurd rfl hne
    · have hcalc : calculateWeeklyClipRankings (c :: cs) =
          (((c :: cs).mergeSort clipLe).enum).map
            (fun p => ⟨p.2.id, p.2.platform, p.2.views, p.2.likes,
              p.2.engagement, p.1 + 1⟩) := rfl
      constructor
      · apply List.ext_getElem
        · simp [hcalc, List.length_mergeSort]
        · intro k h1 h2
          simp [hcalc, List.getElem_map, List.getElem_enum,
            List.getElem_range]
      · intro i j hi hj hrank
        have hi' : i < ((c :: cs).mergeSort clipLe).length := by
          simpa [hcalc] using hi
        have hj' : j < ((c :: cs).mergeSort clipLe).length := by
          simpa [hcalc] using hj
        simp only [hcalc, List.get_eq_getElem, List.getElem_map,
          List.getElem_enum] at hrank ⊢
        have hij : i ≤ j := by omega
        rcases Nat.eq_or_lt_of_le hij with heq | hlt
        · subst heq
          exact Or.inr ⟨rfl, le_refl _⟩
        · have hpair := List.pairwise_iff_get.mp
            (List.sorted_mergeSort clipLe_trans clipLe_total (c :: cs))
            ⟨i, hi'⟩ ⟨j, hj'⟩ hlt
          rw [List.get_eq_getElem, List.get_eq_getElem] at hpair
          simpa only [clipLe, decide_eq_true_eq] using hpair

/-- Concrete clip for the C6 witness. -/
def demoClip : ClipData := ⟨"clip-1", "TIKTOK", "camp-1", "user-1", 100, 10, 2⟩

/-- Witness for C6 at a one-element clip list. -/
theorem c6_weekly_clip_ranking_invariants_witness :
    ([demoClip] : List ClipData) ≠ [] ∧
      ((calculateWeeklyClipRankings [demoClip]).map
        WeeklyClipRankingRow.rank = [1]) := by
  have h := ((c6_weekly_clip_ranking_invariants [demoClip]).2 (by simp)).1
  exact ⟨by simp, by simpa using h⟩

/-! ## C10: no LOW severity is ever produced -/

lemma detectAnomalies_hasAnomalies_eq (history : List StatsHistoryEntry)
    (platform : String) :
    (detectAnomalies history platform).hasAnomalies =
      decide (0 < (detectAnomalies history platform).flags.length) := by
  match history with
  | [] => rfl
  | [x] => rfl
  | a :: b :: t => rfl

/-- C10: every flag `detectAnomalies` emits has severity HIGH or MEDIUM —
    LOW is never produced — so `runBotDetection`'s significant-severity
    filter keeps every flag, and a `stats.bot_detected` publish is attempted
    exactly when `hasAnomalies` is true. -/
theorem c10_all_flags_significant (history : List StatsHistoryEntry)
    (platform : String) :
    (∀ f ∈ (detectAnomalies history platform).flags,
      f.severity = Severity.HIGH ∨ f.severity = Severity.MEDIUM) ∧
    significantFlags (detectAnomalies history platform) =
      (detectAnomalies history platform).flags ∧
    (∀ (clipId campaignId userId : String) (publishOk : Bool),
      (runBotDetectionCore clipId history platform campaignId userId
          publishOk).publishAttempted =
        (detectAnomalies history platform).hasAnomalies) := by
  have hsev : ∀ f ∈ (detectAnomalies history platform).flags,
      f.severity = Severity.HIGH ∨ f.severity = Severity.MEDIUM :=
    fun f hf => (mem_detectAnomalies_flags hf).1
  have hfilter : significantFlags (detectAnomalies history platform) =
      (detectAnomalies history platform).flags := by
    unfold significantFlags
    apply List.filter_eq_self.mpr
    intro f hf
    exact decide_eq_true (hsev f hf)
  have hhas := detectAnomalies_hasAnomalies_eq history platform
  refine ⟨hsev, hfilter, ?_⟩
  intro clipId campaignId userId publishOk
  cases hflags : (detectAnomalies history platform).flags with
  | nil =>
    rw [hflags] at hfilter
    simp only [runBotDetectionCore, hfilter]
    rw [hhas, hflags]
    rfl
  | cons f fs =>
    rw [hflags] at hfilter
    have htrue : (detectAnomalies history platform).hasAnomalies = true := by
      rw [hhas, hflags]; simp
    simp only [runBotDetectionCore, hfilter, htrue]
    rfl

/-- Concrete spike history for the C10 witness. -/
def c10History : List StatsHistoryEntry :=
  [⟨12000, 20, 0, 0, 0⟩, ⟨1000, 15, 0, 0, 1⟩]

/-- Witness for C10: the flag emitted on the concrete spike history has a
    significant severity. -/
theorem c10_all_flags_significant_witness :
    (⟨FlagType.VIEWS_SPIKE, Severity.HIGH,
        "Views increased sharply in 1 hour", 90⟩ : BotFlag).severity =
      Severity.HIGH ∨
    (⟨FlagType.VIEWS_SPIKE, Severity.HIGH,
        "Views increased sharply in 1 hour", 90⟩ : BotFlag).severity =
      Severity.MEDIUM := by
  have hres : detectAnomalies c10History "TIKTOK" =
      ⟨true, [⟨FlagType.VIEWS_SPIKE, Severity.HIGH,
        "Views increased sharply in 1 hour", 90⟩], 90⟩ := by
    norm_num [detectAnomalies, c10History, viewsSpikeFlag, likesSpikeFlag,
      commentsSpikeFlag, engagementFlag, engagementRateOf,
      calculateGrowthRate, GrowthRate.gt,
      thresholdsFor_TIKTOK, tiktokThresholds]
  exact (c10_all_flags_significant c10History "TIKTOK").1
    ⟨FlagType.VIEWS_SPIKE, Severity.HIGH,
      "Views increased sharply in 1 hour", 90⟩
    (by rw [hres]; exact List.mem_singleton.mpr rfl)

end StatisticsService
